import Mathlib

/-!
Verification development for the zkitterjs ingestion coordinator
(`src/services/index.ts`, class `Zkitter`).

The facade dispatches every delivered `(message, proof)` pair through a
single private `insert` method, which switches on `msg.type`, forwards to
the type-specific service, and emits `NewMessageCreated` on success or
`AlreadyExist` when the service raised `AlreadyExistError`; every other
error thrown inside the `try` block is silently dropped by the `catch`.

The per-type services (`posts`, `moderations`, `connections`, `profile`),
the `PubsubService`, and the proof verifier are external to the available
source; where a claim depends on them they are modelled from the spec and
the modelling is stated in the doc comment of the definition.
-/

/-- Message types of `utils/message` `MessageType`.  The coordinator's switch
matches on the four content-bearing tags; any other runtime value of the
`type` field (malformed or undefined) is represented by `other`. -/
inductive MsgType where
  | post
  | moderation
  | connection
  | profile
  | other (s : String)
deriving DecidableEq, Repr

/-- A message as in `utils/message`: common fields `type`, `creator`,
`content`, optional `reference`, and the content address `hash` computed
from the canonical serialization. -/
structure Message where
  type : MsgType
  creator : String
  content : String
  reference : Option String
  hash : String
deriving DecidableEq, Repr

/-- A proof as in `models/proof`: a tagged union of the signature variant
and the zero-knowledge group variant. -/
inductive Proof where
  | signature (sig addr : String)
  | group (root nullifier extNullifier zkProof : String)
deriving DecidableEq, Repr

/-- Errors that the service layer can raise into the coordinator's `try`
block: the `AlreadyExistError` sentinel of the LevelDB adapter, or a
persistence-layer failure. -/
inductive ZErr where
  | alreadyExist
  | storage
deriving DecidableEq, Repr

/-- Events of `ZkitterEvents` relevant to ingestion. -/
inductive ZkitterEvent where
  | newMessageCreated (m : Message)
  | alreadyExist (m : Message)
deriving DecidableEq, Repr

/-- One type partition of the content store: entries keyed by message hash,
secondary indices by creator and by reference, and an insertion-ordered
log. -/
structure Partition where
  entries : List (String × (Message × Proof))
  byCreator : List (String × String)
  byReference : List (String × String)
  log : List String
deriving DecidableEq, Repr

/-- The mutation performed by a successful ContentStore insert: persist the
pair under the message hash and update the secondary indices and the
insertion-ordered log. -/
def Partition.grow (p : Partition) (m : Message) (pf : Proof) : Partition :=
  { entries := (m.hash, (m, pf)) :: p.entries
    byCreator := (m.creator, m.hash) :: p.byCreator
    byReference :=
      match m.reference with
      | some r => (r, m.hash) :: p.byReference
      | none => p.byReference
    log := p.log ++ [m.hash] }

/-- Modelled from the spec: the per-type ContentStore insert of the service
files (`services/posts.ts` and friends are not part of the available
source).  Insert is an atomic check-and-set keyed by `message.hash`: if an
entry with that hash exists it raises `AlreadyExistError` and performs no
mutation; otherwise it persists `(message, proof)` and updates the
secondary indices and the insertion log as one atomic unit.  A failure of
the underlying persistence layer (fault-injected through `failing`)
surfaces as a storage error. -/
def Partition.insertCS (failing : Bool) (p : Partition) (m : Message) (pf : Proof) :
    Except ZErr Partition :=
  if failing then .error .storage
  else if p.entries.any (fun e => e.1 == m.hash) then .error .alreadyExist
  else .ok (p.grow m pf)

/-- The state owned by the `Zkitter` facade's services: the four content
partitions, plus `published` recording what the pubsub transport has been
asked to publish, and a fault-injection flag for the persistence layer. -/
structure ZkitterState where
  posts : Partition
  moderations : Partition
  connections : Partition
  profile : Partition
  published : List (Message × Proof)
  storageFailing : Bool
deriving DecidableEq, Repr

namespace Zkitter

/-- The `try` block of `Zkitter.insert`: switch on `msg.type`, forward to
the matching service's insert, and on its success emit
`NewMessageCreated`; a type outside the four cases falls through the
switch and nothing happens. -/
def insertBody (s : ZkitterState) (m : Message) (pf : Proof) :
    Except ZErr (ZkitterState × List ZkitterEvent) :=
  match m.type with
  | .post =>
    (Partition.insertCS s.storageFailing s.posts m pf).map
      (fun p => ({ s with posts := p }, [.newMessageCreated m]))
  | .moderation =>
    (Partition.insertCS s.storageFailing s.moderations m pf).map
      (fun p => ({ s with moderations := p }, [.newMessageCreated m]))
  | .connection =>
    (Partition.insertCS s.storageFailing s.connections m pf).map
      (fun p => ({ s with connections := p }, [.newMessageCreated m]))
  | .profile =>
    (Partition.insertCS s.storageFailing s.profile m pf).map
      (fun p => ({ s with profile := p }, [.newMessageCreated m]))
  | .other _ => .ok (s, [])

/-- `Zkitter.insert` (`services/index.ts` lines 211-236): the body above
wrapped in `try/catch`.  The catch block emits `AlreadyExist` when the
thrown value is the `AlreadyExistError` sentinel and otherwise does
nothing, so the method always returns normally (`Except.ok`); an uncaught
rethrow would be an `Except.error`, and there is none. -/
def insert (s : ZkitterState) (m : Message) (pf : Proof) :
    Except ZErr (ZkitterState × List ZkitterEvent) :=
  match insertBody s m pf with
  | .ok r => .ok r
  | .error e => if e = ZErr.alreadyExist then .ok (s, [.alreadyExist m]) else .ok (s, [])

end Zkitter

/-- Whether a message type is one of the four cases of the coordinator's
switch. -/
def MsgType.isMain : MsgType → Bool
  | .other _ => false
  | _ => true

/-- The partition a message type dispatches to (`none` for a type outside
the switch). -/
def ZkitterState.partitionOf (s : ZkitterState) : MsgType → Option Partition
  | .post => some s.posts
  | .moderation => some s.moderations
  | .connection => some s.connections
  | .profile => some s.profile
  | .other _ => none

/-- Whether the partition for type `t` already holds an entry keyed `h`. -/
def ZkitterState.containsHash (s : ZkitterState) (t : MsgType) (h : String) : Bool :=
  match s.partitionOf t with
  | some p => p.entries.any (fun e => e.1 == h)
  | none => false

/-- The result of running one pubsub delivery handler: the state and events
produced, together with the list of arguments the handler passed to
`this.insert` (empty when the guard skipped the delivery). -/
abbrev HandlerRun := Except ZErr (ZkitterState × List ZkitterEvent × List (Message × Proof))

namespace Zkitter

/-- The handler `queryUser` installs on the gateway:
`async (msg, proof) => { if (msg) await this.insert(msg, proof); }`. -/
def queryUserHandler (s : ZkitterState) (msg : Option Message) (pf : Proof) : HandlerRun :=
  match msg with
  | some m =>
    match insert s m pf with
    | .ok (s1, ev) => .ok (s1, ev, [(m, pf)])
    | .error e => .error e
  | none => .ok (s, [], [])

/-- The handler `queryGroup` installs on the gateway (same closure body). -/
def queryGroupHandler (s : ZkitterState) (msg : Option Message) (pf : Proof) : HandlerRun :=
  match msg with
  | some m =>
    match insert s m pf with
    | .ok (s1, ev) => .ok (s1, ev, [(m, pf)])
    | .error e => .error e
  | none => .ok (s, [], [])

/-- The handler `queryAll` installs on the gateway (same closure body). -/
def queryAllHandler (s : ZkitterState) (msg : Option Message) (pf : Proof) : HandlerRun :=
  match msg with
  | some m =>
    match insert s m pf with
    | .ok (s1, ev) => .ok (s1, ev, [(m, pf)])
    | .error e => .error e
  | none => .ok (s, [], [])

/-- The handler `subscribe` installs via `subscribeAll` (same closure body). -/
def subscribeAllHandler (s : ZkitterState) (msg : Option Message) (pf : Proof) : HandlerRun :=
  match msg with
  | some m =>
    match insert s m pf with
    | .ok (s1, ev) => .ok (s1, ev, [(m, pf)])
    | .error e => .error e
  | none => .ok (s, [], [])

/-- The handler `subscribeUsers` installs (same closure body). -/
def subscribeUsersHandler (s : ZkitterState) (msg : Option Message) (pf : Proof) : HandlerRun :=
  match msg with
  | some m =>
    match insert s m pf with
    | .ok (s1, ev) => .ok (s1, ev, [(m, pf)])
    | .error e => .error e
  | none => .ok (s, [], [])

/-- The handler `subscribeThreads` installs (same closure body). -/
def subscribeThreadsHandler (s : ZkitterState) (msg : Option Message) (pf : Proof) : HandlerRun :=
  match msg with
  | some m =>
    match insert s m pf with
    | .ok (s1, ev) => .ok (s1, ev, [(m, pf)])
    | .error e => .error e
  | none => .ok (s, [], [])

/-- The subscribe closure returned by `user(address)`, which installs the
same guarded body via `pubsub.subscribeUser`. -/
def userSubscribeHandler (s : ZkitterState) (msg : Option Message) (pf : Proof) : HandlerRun :=
  match msg with
  | some m =>
    match insert s m pf with
    | .ok (s1, ev) => .ok (s1, ev, [(m, pf)])
    | .error e => .error e
  | none => .ok (s, [], [])

/-- The subscribe closure returned by `thread(hash)`, which installs the
same guarded body via `pubsub.subscribeThread`. -/
def threadSubscribeHandler (s : ZkitterState) (msg : Option Message) (pf : Proof) : HandlerRun :=
  match msg with
  | some m =>
    match insert s m pf with
    | .ok (s1, ev) => .ok (s1, ev, [(m, pf)])
    | .error e => .error e
  | none => .ok (s, [], [])

/-- Every delivery handler the coordinator registers on the pubsub
gateway, one per entry path. -/
def allEntryHandlers :
    List (ZkitterState → Option Message → Proof → HandlerRun) :=
  [queryUserHandler, queryGroupHandler, queryAllHandler, subscribeAllHandler,
   subscribeUsersHandler, subscribeThreadsHandler, userSubscribeHandler,
   threadSubscribeHandler]

end Zkitter

/-- Verification outcomes of the ProofVerifier contract. -/
inductive VerifyResult where
  | accept
  | reject (reason : String)
deriving DecidableEq, Repr

/-- State of the proof verifier: the GroupRegistry's reverse index mapping
each historical root to its owning group, and the per-group
NullifierLedger of seen `(nullifier, externalNullifier)` pairs, stored as
`(groupId, nullifier, extNullifier)` triples. -/
structure VerifierState where
  rootIndex : List (String × String)
  nullifierLedger : List (String × String × String)
deriving DecidableEq, Repr

/-- Modelled from the spec: the group variant of `ProofVerifier.verify`
(the verifier is not part of the available source).  It looks up
`proof.root` via GroupRegistry, rejecting with `UnknownRoot` when absent;
verifies the zero-knowledge proof against the public signals (the opaque
circuit is the parameter `zkOk`), rejecting with `InvalidProof` on
cryptographic failure; then checks the NullifierLedger for
`(nullifier, externalNullifier)` in that group, rejecting with
`NullifierReused` when present and otherwise recording the pair and
accepting. -/
def verifyGroupProof (zkOk : String → String → String → String → String → Bool)
    (st : VerifierState) (m : Message)
    (root nullifier extNullifier zkProof : String) :
    VerifyResult × VerifierState :=
  match st.rootIndex.lookup root with
  | none => (.reject "UnknownRoot", st)
  | some gid =>
    if zkOk zkProof root nullifier extNullifier m.hash then
      if (gid, nullifier, extNullifier) ∈ st.nullifierLedger then
        (.reject "NullifierReused", st)
      else
        (.accept, { st with nullifierLedger := (gid, nullifier, extNullifier) :: st.nullifierLedger })
    else (.reject "InvalidProof", st)

/-- Authoring options accepted by `Zkitter.write`, mirroring the TS option
object: `creator`, `content`, optional `reference`, and either a private
key (signature authorship) or a zk identity with group scope (anonymous
authorship). -/
structure WriteOptions where
  creator : String
  content : String
  reference : Option String
  privateKey : Option String
  zkIdentity : Option String
  groupId : Option String
deriving DecidableEq, Repr

/-- Modelled from the spec: the canonical content address of an authored
post, `hash = H(canonical-serialization(message))`; the serialization
itself stands in for the hash so that identical canonical bytes collapse
to one identifier. -/
def contentAddress (o : WriteOptions) : String :=
  "POST|" ++ o.creator ++ "|" ++ o.content ++ "|" ++
    (match o.reference with
     | some r => r
     | none => "")

/-- Modelled from the spec: the Message that `PubsubService.write`
constructs locally from the authoring options. -/
def makeMessage (o : WriteOptions) : Message :=
  { type := .post
    creator := o.creator
    content := o.content
    reference := o.reference
    hash := contentAddress o }

/-- Modelled from the spec: the Proof that `PubsubService.write`
constructs locally: a signature over the message hash under the creator's
key when a private key is supplied, and otherwise a zero-knowledge group
proof from the zk identity. -/
def makeProof (o : WriteOptions) (m : Message) : Proof :=
  match o.privateKey with
  | some sk => .signature ("sig(" ++ sk ++ "," ++ m.hash ++ ")") o.creator
  | none =>
    .group ("root(" ++ (o.groupId.getD "zksocial_all") ++ ")")
      ("null(" ++ (o.zkIdentity.getD "") ++ "," ++ m.hash ++ ")")
      ("extnull(" ++ m.hash ++ ")")
      ("zkp(" ++ (o.zkIdentity.getD "") ++ ")")

/-- Modelled from the spec: `PubsubService.write` (not part of the
available source) constructs the Message and Proof locally, publishes the
pair on the transport, and returns the constructed message; it calls
neither ProofVerifier nor the coordinator's insert, so the content
partitions are untouched. -/
def pubsubWrite (s : ZkitterState) (o : WriteOptions) : Message × ZkitterState :=
  let m := makeMessage o
  let pf := makeProof o m
  (m, { s with published := (m, pf) :: s.published })

/-- `Zkitter.write` (`services/index.ts` lines 294-304): a direct
delegation to `this.services.pubsub.write(options)`. -/
def Zkitter.write (s : ZkitterState) (o : WriteOptions) : Message × ZkitterState :=
  pubsubWrite s o

/-- The keys of `this.services` that the constructor iterates over when
wiring event forwarding. -/
def serviceNames : List String :=
  ["pubsub", "users", "posts", "moderations", "connections", "profile", "groups"]

/-- The event-forwarding wiring built by the `Zkitter` constructor: for
each sub-service it registers `service.onAny((event, value) =>
this.emit(event, value))`, so the handler paired with every service name
re-emits the received event name and value unchanged. -/
def zkitterWiring : List (String × (String → String → String × String)) :=
  serviceNames.map (fun n => (n, fun event value => (event, value)))

/-! Concrete fixtures used by witnesses and counterexamples. -/

def emptyPartition : Partition :=
  { entries := [], byCreator := [], byReference := [], log := [] }

def s0 : ZkitterState :=
  { posts := emptyPartition, moderations := emptyPartition,
    connections := emptyPartition, profile := emptyPartition,
    published := [], storageFailing := false }

def m0 : Message :=
  { type := .post, creator := "0xabc", content := "hello world",
    reference := none, hash := "h0" }

def pf0 : Proof := .signature "sig0" "0xabc"

def sWithM0 : ZkitterState := { s0 with posts := s0.posts.grow m0 pf0 }

def sFailing : ZkitterState := { s0 with storageFailing := true }

def mJunk : Message :=
  { type := .other "JUNK", creator := "0xabc", content := "x",
    reference := none, hash := "hj" }

/-- The insert method of the coordinator never propagates an exception:
whatever the service layer raises, the catch block absorbs it and the call
returns normally. -/
theorem insert_total (s : ZkitterState) (m : Message) (pf : Proof) :
    ∃ r, Zkitter.insert s m pf = Except.ok r := by
  unfold Zkitter.insert
  cases hb : Zkitter.insertBody s m pf with
  | ok r => exact ⟨r, rfl⟩
  | error e =>
    by_cases he : e = ZErr.alreadyExist
    · exact ⟨(s, [ZkitterEvent.alreadyExist m]), by simp [he]⟩
    · exact ⟨(s, []), by simp [he]⟩

/-- C3: inserting the same (message, proof) pair twice through the
coordinator yields the NewMessageCreated event on the first call and the
AlreadyExist event on the second, and the stored state after both calls is
identical to the state after the first call alone. -/
theorem c3_insert_idempotent (s : ZkitterState) (m : Message) (pf : Proof)
    (s1 : ZkitterState) (ev1 : List ZkitterEvent)
    (hfail : s.storageFailing = false)
    (hmain : m.type.isMain = true)
    (habs : s.containsHash m.type m.hash = false)
    (hins : Zkitter.insert s m pf = Except.ok (s1, ev1)) :
    ev1 = [ZkitterEvent.newMessageCreated m] ∧
    Zkitter.insert s1 m pf = Except.ok (s1, [ZkitterEvent.alreadyExist m]) := by
  cases htype : m.type with
  | other t => simp [MsgType.isMain, htype] at hmain
  | post =>
    have habs2 : s.posts.entries.any (fun e => e.1 == m.hash) = false := by
      simpa [ZkitterState.containsHash, ZkitterState.partitionOf, htype] using habs
    simp [Zkitter.insert, Zkitter.insertBody, htype, Partition.insertCS, hfail,
      habs2, Except.map, Except.ok.injEq, Prod.mk.injEq] at hins
    obtain ⟨rfl, rfl⟩ := hins
    refine ⟨rfl, ?_⟩
    simp [Zkitter.insert, Zkitter.insertBody, htype, Partition.insertCS, hfail,
      Partition.grow, Except.map]
  | moderation =>
    have habs2 : s.moderations.entries.any (fun e => e.1 == m.hash) = false := by
      simpa [ZkitterState.containsHash, ZkitterState.partitionOf, htype] using habs
    simp [Zkitter.insert, Zkitter.insertBody, htype, Partition.insertCS, hfail,
      habs2, Except.map, Except.ok.injEq, Prod.mk.injEq] at hins
    obtain ⟨rfl, rfl⟩ := hins
    refine ⟨rfl, ?_⟩
    simp [Zkitter.insert, Zkitter.insertBody, htype, Partition.insertCS, hfail,
      Partition.grow, Except.map]
  | connection =>
    have habs2 : s.connections.entries.any (fun e => e.1 == m.hash) = false := by
      simpa [ZkitterState.containsHash, ZkitterState.partitionOf, htype] using habs
    simp [Zkitter.insert, Zkitter.insertBody, htype, Partition.insertCS, hfail,
      habs2, Except.map, Except.ok.injEq, Prod.mk.injEq] at hins
    obtain ⟨rfl, rfl⟩ := hins
    refine ⟨rfl, ?_⟩
    simp [Zkitter.insert, Zkitter.insertBody, htype, Partition.insertCS, hfail,
      Partition.grow, Except.map]
  | profile =>
    have habs2 : s.profile.entries.any (fun e => e.1 == m.hash) = false := by
      simpa [ZkitterState.containsHash, ZkitterState.partitionOf, htype] using habs
    simp [Zkitter.insert, Zkitter.insertBody, htype, Partition.insertCS, hfail,
      habs2, Except.map, Except.ok.injEq, Prod.mk.injEq] at hins
    obtain ⟨rfl, rfl⟩ := hins
    refine ⟨rfl, ?_⟩
    simp [Zkitter.insert, Zkitter.insertBody, htype, Partition.insertCS, hfail,
      Partition.grow, Except.map]

/-- C3 witness: the idempotence theorem evaluated at a concrete state and
message. -/
theorem c3_insert_idempotent_witness :
    s0.storageFailing = false ∧ m0.type.isMain = true ∧
    s0.containsHash m0.type m0.hash = false ∧
    Zkitter.insert s0 m0 pf0 = Except.ok (sWithM0, [ZkitterEvent.newMessageCreated m0]) ∧
    ([ZkitterEvent.newMessageCreated m0] = [ZkitterEvent.newMessageCreated m0] ∧
      Zkitter.insert sWithM0 m0 pf0 = Except.ok (sWithM0, [ZkitterEvent.alreadyExist m0])) :=
  ⟨rfl, rfl, rfl, rfl, c3_insert_idempotent s0 m0 pf0 sWithM0 _ rfl rfl rfl rfl⟩

/-- C4: when the per-item insert fails with the already-exists condition,
the coordinator returns normally, emits the AlreadyExist event carrying
the message, and emits no NewMessageCreated event. -/
theorem c4_already_exists_is_normal_outcome (s : ZkitterState) (m : Message) (pf : Proof)
    (hbody : Zkitter.insertBody s m pf = Except.error ZErr.alreadyExist) :
    Zkitter.insert s m pf = Except.ok (s, [ZkitterEvent.alreadyExist m]) := by
  simp [Zkitter.insert, hbody]

/-- C4 witness: the already-exists path evaluated at a concrete state
holding the message. -/
theorem c4_already_exists_is_normal_outcome_witness :
    Zkitter.insertBody sWithM0 m0 pf0 = Except.error ZErr.alreadyExist ∧
    Zkitter.insert sWithM0 m0 pf0 = Except.ok (sWithM0, [ZkitterEvent.alreadyExist m0]) :=
  ⟨rfl, c4_already_exists_is_normal_outcome sWithM0 m0 pf0 rfl⟩

/-- C5 counterexample: the claim that a non-already-exists failure of the
persistence layer propagates to the caller of insert is false: at a state
whose storage layer fails, the body raises a storage error yet insert
still returns normally, because the catch block of the source absorbs
every thrown value. -/
theorem c5_counterexample_storage_error_swallowed :
    ¬ (∀ (s : ZkitterState) (m : Message) (pf : Proof) (e : ZErr),
        Zkitter.insertBody s m pf = Except.error e → e ≠ ZErr.alreadyExist →
        ∃ err, Zkitter.insert s m pf = Except.error err) := by
  intro hclaim
  obtain ⟨err, herr⟩ := hclaim sFailing m0 pf0 ZErr.storage rfl (by decide)
  have hok : Zkitter.insert sFailing m0 pf0 = Except.ok (sFailing, []) := rfl
  rw [hok] at herr
  exact Except.noConfusion herr

/-- C5 amended: a failure of the persistence layer other than the
already-exists sentinel does not propagate: the catch block swallows it,
and insert returns normally with no event emitted. -/
theorem c5_amended_storage_error_swallowed (s : ZkitterState) (m : Message) (pf : Proof)
    (e : ZErr) (hbody : Zkitter.insertBody s m pf = Except.error e)
    (hne : e ≠ ZErr.alreadyExist) :
    Zkitter.insert s m pf = Except.ok (s, []) := by
  simp [Zkitter.insert, hbody, hne]

/-- C5 amended witness: the swallowing behaviour evaluated at a concrete
failing state. -/
theorem c5_amended_storage_error_swallowed_witness :
    Zkitter.insertBody sFailing m0 pf0 = Except.error ZErr.storage ∧
    ZErr.storage ≠ ZErr.alreadyExist ∧
    Zkitter.insert sFailing m0 pf0 = Except.ok (sFailing, []) :=
  ⟨rfl, by decide, c5_amended_storage_error_swallowed sFailing m0 pf0 ZErr.storage rfl (by decide)⟩

/-- C9: a message whose type is outside the four switch cases makes the
coordinator insert a no-op: no service insert runs, the state is
unchanged, no event is emitted, and the call returns normally. -/
theorem c9_unmatched_type_is_noop (s : ZkitterState) (m : Message) (pf : Proof)
    (hmain : m.type.isMain = false) :
    Zkitter.insert s m pf = Except.ok (s, []) := by
  cases htype : m.type with
  | post => simp [MsgType.isMain, htype] at hmain
  | moderation => simp [MsgType.isMain, htype] at hmain
  | connection => simp [MsgType.isMain, htype] at hmain
  | profile => simp [MsgType.isMain, htype] at hmain
  | other t => simp [Zkitter.insert, Zkitter.insertBody, htype]

/-- C9 witness: the no-op behaviour evaluated at a message with a
malformed type tag. -/
theorem c9_unmatched_type_is_noop_witness :
    mJunk.type.isMain = false ∧
    Zkitter.insert s0 mJunk pf0 = Except.ok (s0, []) :=
  ⟨rfl, c9_unmatched_type_is_noop s0 mJunk pf0 rfl⟩

/-- C1: every delivery handler the coordinator registers on any query or
subscription path routes a delivered (message, proof) pair through the
single private insert method: the handler passes exactly that pair to
insert exactly once, and its entire effect on state and events is the
effect of that one insert call. -/
theorem c1_every_path_routes_through_insert
    (h : ZkitterState → Option Message → Proof → HandlerRun)
    (hmem : h ∈ Zkitter.allEntryHandlers)
    (s : ZkitterState) (m : Message) (pf : Proof) :
    ∃ s1 ev, Zkitter.insert s m pf = Except.ok (s1, ev) ∧
      h s (some m) pf = Except.ok (s1, ev, [(m, pf)]) := by
  obtain ⟨⟨s1, ev⟩, hr⟩ := insert_total s m pf
  refine ⟨s1, ev, hr, ?_⟩
  simp only [Zkitter.allEntryHandlers, List.mem_cons, List.not_mem_nil, or_false] at hmem
  rcases hmem with rfl | rfl | rfl | rfl | rfl | rfl | rfl | rfl
  · simp [Zkitter.queryUserHandler, hr]
  · simp [Zkitter.queryGroupHandler, hr]
  · simp [Zkitter.queryAllHandler, hr]
  · simp [Zkitter.subscribeAllHandler, hr]
  · simp [Zkitter.subscribeUsersHandler, hr]
  · simp [Zkitter.subscribeThreadsHandler, hr]
  · simp [Zkitter.userSubscribeHandler, hr]
  · simp [Zkitter.threadSubscribeHandler, hr]

/-- C1 witness: the routing property evaluated for the queryUser handler at
a concrete state and message. -/
theorem c1_every_path_routes_through_insert_witness :
    Zkitter.queryUserHandler ∈ Zkitter.allEntryHandlers ∧
    ∃ s1 ev, Zkitter.insert s0 m0 pf0 = Except.ok (s1, ev) ∧
      Zkitter.queryUserHandler s0 (some m0) pf0 = Except.ok (s1, ev, [(m0, pf0)]) :=
  ⟨List.Mem.head _,
   c1_every_path_routes_through_insert Zkitter.queryUserHandler (List.Mem.head _) s0 m0 pf0⟩

/-- C10: every delivery handler the coordinator registers guards on the
delivered message being non-null: a delivery with no message leaves the
state unchanged, passes nothing to insert, emits nothing, and returns
normally. -/
theorem c10_null_message_skipped
    (h : ZkitterState → Option Message → Proof → HandlerRun)
    (hmem : h ∈ Zkitter.allEntryHandlers)
    (s : ZkitterState) (pf : Proof) :
    h s none pf = Except.ok (s, [], []) := by
  simp only [Zkitter.allEntryHandlers, List.mem_cons, List.not_mem_nil, or_false] at hmem
  rcases hmem with rfl | rfl | rfl | rfl | rfl | rfl | rfl | rfl <;> rfl

/-- C10 witness: the null guard evaluated for the subscribeAll handler at a
concrete state. -/
theorem c10_null_message_skipped_witness :
    Zkitter.subscribeAllHandler ∈ Zkitter.allEntryHandlers ∧
    Zkitter.subscribeAllHandler s0 none pf0 = Except.ok (s0, [], []) :=
  ⟨by simp [Zkitter.allEntryHandlers],
   c10_null_message_skipped Zkitter.subscribeAllHandler (by simp [Zkitter.allEntryHandlers])
     s0 pf0⟩

/-- C6: a successful coordinator insert of a message of one of the four
content types updates exactly the partition matching the type of the
message through that service insert, leaves every other partition and the
publish log untouched, and emits the NewMessageCreated event exactly once
with the message as payload. -/
theorem c6_dispatch_to_matching_service (s : ZkitterState) (m : Message) (pf : Proof)
    (hfail : s.storageFailing = false)
    (hmain : m.type.isMain = true)
    (habs : s.containsHash m.type m.hash = false) :
    ∃ s1, Zkitter.insert s m pf = Except.ok (s1, [ZkitterEvent.newMessageCreated m]) ∧
      s1.partitionOf m.type = Option.map (fun p => p.grow m pf) (s.partitionOf m.type) ∧
      (∀ t, t ≠ m.type → s1.partitionOf t = s.partitionOf t) ∧
      s1.published = s.published := by
  cases htype : m.type with
  | other t => simp [MsgType.isMain, htype] at hmain
  | post =>
    have habs2 : s.posts.entries.any (fun e => e.1 == m.hash) = false := by
      simpa [ZkitterState.containsHash, ZkitterState.partitionOf, htype] using habs
    refine ⟨{ s with posts := s.posts.grow m pf }, ?_, ?_, ?_, rfl⟩
    · simp [Zkitter.insert, Zkitter.insertBody, htype, Partition.insertCS, hfail,
        habs2, Except.map]
    · simp [ZkitterState.partitionOf]
    · intro t ht
      cases t <;> simp_all [ZkitterState.partitionOf]
  | moderation =>
    have habs2 : s.moderations.entries.any (fun e => e.1 == m.hash) = false := by
      simpa [ZkitterState.containsHash, ZkitterState.partitionOf, htype] using habs
    refine ⟨{ s with moderations := s.moderations.grow m pf }, ?_, ?_, ?_, rfl⟩
    · simp [Zkitter.insert, Zkitter.insertBody, htype, Partition.insertCS, hfail,
        habs2, Except.map]
    · simp [ZkitterState.partitionOf]
    · intro t ht
      cases t <;> simp_all [ZkitterState.partitionOf]
  | connection =>
    have habs2 : s.connections.entries.any (fun e => e.1 == m.hash) = false := by
      simpa [ZkitterState.containsHash, ZkitterState.partitionOf, htype] using habs
    refine ⟨{ s with connections := s.connections.grow m pf }, ?_, ?_, ?_, rfl⟩
    · simp [Zkitter.insert, Zkitter.insertBody, htype, Partition.insertCS, hfail,
        habs2, Except.map]
    · simp [ZkitterState.partitionOf]
    · intro t ht
      cases t <;> simp_all [ZkitterState.partitionOf]
  | profile =>
    have habs2 : s.profile.entries.any (fun e => e.1 == m.hash) = false := by
      simpa [ZkitterState.containsHash, ZkitterState.partitionOf, htype] using habs
    refine ⟨{ s with profile := s.profile.grow m pf }, ?_, ?_, ?_, rfl⟩
    · simp [Zkitter.insert, Zkitter.insertBody, htype, Partition.insertCS, hfail,
        habs2, Except.map]
    · simp [ZkitterState.partitionOf]
    · intro t ht
      cases t <;> simp_all [ZkitterState.partitionOf]

/-- C6 witness: the dispatch property evaluated at a concrete post
message. -/
theorem c6_dispatch_to_matching_service_witness :
    s0.storageFailing = false ∧ m0.type.isMain = true ∧
    s0.containsHash m0.type m0.hash = false ∧
    (∃ s1, Zkitter.insert s0 m0 pf0 = Except.ok (s1, [ZkitterEvent.newMessageCreated m0]) ∧
      s1.partitionOf m0.type = Option.map (fun p => p.grow m0 pf0) (s0.partitionOf m0.type) ∧
      (∀ t, t ≠ m0.type → s1.partitionOf t = s0.partitionOf t) ∧
      s1.published = s0.published) :=
  ⟨rfl, rfl, rfl, c6_dispatch_to_matching_service s0 m0 pf0 rfl rfl rfl⟩

/-- C2: for two distinct messages carrying the same (nullifier,
externalNullifier) for the same group, the first successful verification
accepts and records the pair in the per-group NullifierLedger, and the
verification of whichever message arrives second is rejected with
NullifierReused even though the contents of the messages differ. -/
theorem c2_nullifier_replay_rejected
    (zkOk : String → String → String → String → String → Bool)
    (st : VerifierState) (m1 m2 : Message)
    (root1 root2 nullifier extNullifier zkp1 zkp2 gid : String)
    (_hne : m1 ≠ m2)
    (hr1 : st.rootIndex.lookup root1 = some gid)
    (hr2 : st.rootIndex.lookup root2 = some gid)
    (hzk1 : zkOk zkp1 root1 nullifier extNullifier m1.hash = true)
    (hzk2 : zkOk zkp2 root2 nullifier extNullifier m2.hash = true)
    (hfresh : (gid, nullifier, extNullifier) ∉ st.nullifierLedger) :
    ∃ st1, verifyGroupProof zkOk st m1 root1 nullifier extNullifier zkp1 =
        (VerifyResult.accept, st1) ∧
      (gid, nullifier, extNullifier) ∈ st1.nullifierLedger ∧
      verifyGroupProof zkOk st1 m2 root2 nullifier extNullifier zkp2 =
        (VerifyResult.reject "NullifierReused", st1) := by
  refine ⟨{ st with
      nullifierLedger := (gid, nullifier, extNullifier) :: st.nullifierLedger }, ?_, ?_, ?_⟩
  · simp [verifyGroupProof, hr1, hzk1, hfresh]
  · exact List.mem_cons_self _ _
  · simp [verifyGroupProof, hr2, hzk2]

/-- A circuit stub that accepts every proof, standing in for the opaque
verify function of the zero-knowledge proof system. -/
def zkOkAll : String → String → String → String → String → Bool :=
  fun _ _ _ _ _ => true

def vst0 : VerifierState := { rootIndex := [("r1", "g1")], nullifierLedger := [] }

def mA : Message :=
  { type := .post, creator := "", content := "first post", reference := none, hash := "ha" }

def mB : Message :=
  { type := .post, creator := "", content := "second post", reference := none, hash := "hb" }

/-- C2 witness: the replay rejection evaluated at concrete messages with
differing contents and an always-accepting circuit. -/
theorem c2_nullifier_replay_rejected_witness :
    mA ≠ mB ∧
    ∃ st1, verifyGroupProof zkOkAll vst0 mA "r1" "n1" "e1" "z1" =
        (VerifyResult.accept, st1) ∧
      ("g1", "n1", "e1") ∈ st1.nullifierLedger ∧
      verifyGroupProof zkOkAll st1 mB "r1" "n1" "e1" "z2" =
        (VerifyResult.reject "NullifierReused", st1) :=
  ⟨by decide,
   c2_nullifier_replay_rejected zkOkAll vst0 mA mB "r1" "r1" "n1" "e1" "z1" "z2" "g1"
     (by decide) rfl rfl rfl rfl (by decide)⟩

/-- C7: for every sub-service of the coordinator, the constructor wiring
registers a forwarding handler that re-emits any event received from that
service with the same event name and the same value. -/
theorem c7_events_forwarded_unchanged (svc : String) (hsvc : svc ∈ serviceNames)
    (event value : String) :
    ∃ h, (svc, h) ∈ zkitterWiring ∧ h event value = (event, value) :=
  ⟨fun e v => (e, v), List.mem_map_of_mem _ hsvc, rfl⟩

/-- C7 witness: the forwarding property evaluated for the users service at
a concrete event. -/
theorem c7_events_forwarded_unchanged_witness :
    "users" ∈ serviceNames ∧
    ∃ h, ("users", h) ∈ zkitterWiring ∧
      h "Users.ArbitrumSynced" "block-1" = ("Users.ArbitrumSynced", "block-1") :=
  ⟨by simp [serviceNames],
   c7_events_forwarded_unchanged "users" (by simp [serviceNames])
     "Users.ArbitrumSynced" "block-1"⟩

/-- C8: for every authoring options input, write returns the locally
constructed message after appending the constructed (message, proof) pair
to the publish log, and it touches neither the content partitions nor any
verification state: no proof verification and no coordinator insert runs
on the authored content. -/
theorem c8_write_publishes_without_verifying (s : ZkitterState) (o : WriteOptions) :
    (Zkitter.write s o).1 = makeMessage o ∧
    (Zkitter.write s o).2.published =
      (makeMessage o, makeProof o (makeMessage o)) :: s.published ∧
    (Zkitter.write s o).2.posts = s.posts ∧
    (Zkitter.write s o).2.moderations = s.moderations ∧
    (Zkitter.write s o).2.connections = s.connections ∧
    (Zkitter.write s o).2.profile = s.profile :=
  ⟨rfl, rfl, rfl, rfl, rfl, rfl⟩
